import Mathlib

/-!
Shallow embedding of the webinar-registration handlers of this repository.

Two variants of the `register` HTTP handler exist in the source:
* the base variant (`src/functions/index.js`), embedded here as `registerBase`;
* the extended variant (`src/unnamed/part_000`), embedded here as `registerExt`.

External collaborators (the `fetch` responses of the token endpoint, the
webinar registrant-creation endpoint and the mailing-list upsert endpoints,
and the behaviour of `JSON.parse` on the response bodies) are modelled as an
oracle record (`WorldB` / `WorldE`) supplying, for each outbound call the
handler can make, the HTTP status, the raw text body and the outcome of
parsing that body as JSON (restricted to the only part the handler reads:
the `message` field).

The handler itself is embedded as a pure function from the request method,
the parsed request body and the world to the list of outbound calls it
issues (in order) and the list of HTTP response sends it attempts (in
order).  The hosting HTTP layer delivers only the first send to the caller:
once a response is committed, a later `res.send` fails with a
headers-already-sent error and nothing further reaches the caller, so the
caller-visible response of a run is the head of its `sends` list.
-/

namespace EventReg

/-- The part of a `fetch` response the handlers observe: the HTTP status,
the raw text body (`response.text()`), and the outcome of `JSON.parse` on
that body restricted to its `message` field — `none` when parsing throws,
`some none` when it parses but has no string `message`, `some (some m)`
when it parses with string `message` field `m`. -/
structure ProviderResp where
  status : Nat
  text : String
  jsonMessage : Option (Option String)
deriving DecidableEq, Repr

/-- `Response.ok` of the fetch API: status in the inclusive range 200–299. -/
def ProviderResp.ok (r : ProviderResp) : Bool :=
  200 ≤ r.status && r.status ≤ 299

/-- The data the catch blocks read off a thrown error: the optional
`type` and `text` properties attached before throwing, and (when `text`
is a string) the outcome of `JSON.parse(error.text)` on it. -/
structure JsError where
  type : Option String
  text : Option String
  jsonMessage : Option (Option String)
deriving DecidableEq, Repr

/-- An attempted HTTP response send: status plus the JSON body fields the
handlers ever set (absent fields are `none`; `undefined` values are
dropped by JSON serialisation, also modelled as `none`). -/
structure HttpOut where
  status : Nat
  message : Option String := none
  info : Option String := none
  errorAt : Option String := none
  join_url : Option String := none
deriving DecidableEq, Repr

/-- JavaScript falsiness of an optional string request field: `undefined`
and the empty string are falsy, every other string is truthy. -/
def jsFalsy : Option String → Bool
  | none => true
  | some s => s == ""

/-- The whitespace class `\s` of JavaScript regular expressions (the
ASCII whitespace characters and the no-break space; further Unicode
space characters exist in `\s` but are not relevant to the claims). -/
def isJsSpace (c : Char) : Bool :=
  c == ' ' || c == '\t' || c == '\n' || c == '\r' || c.val == 11 || c.val == 12 || c.val == 160

/-- The character class `[^\s@]` of the email regex. -/
def emailCharOk (c : Char) : Bool :=
  !isJsSpace c && c != '@'

/-- `emailRegex.test` for `/^[^\s@]+@[^\s@]+\.[^\s@]+$/`: the string is a
nonempty run of `[^\s@]` characters, an `@`, and a domain part that is a
nonempty run of `[^\s@]` characters containing a literal `.` that is
neither its first nor its last character.  Since the classes exclude `@`,
the `@` of a match is the first `@` of the string. -/
def emailRegexTest (s : String) : Bool :=
  let cs := s.data
  let l := cs.takeWhile (fun c => c != '@')
  match cs.dropWhile (fun c => c != '@') with
  | [] => false
  | _ :: d =>
    !l.isEmpty && l.all emailCharOk &&
    !d.isEmpty && d.all emailCharOk &&
    ((d.drop 1).dropLast.contains '.')

/-- The `info` value the shared catch block computes: `error?.text` if it
is a string, refined — when `JSON.parse(error.text)` succeeds — to
`parsedError.message || error.text` (an empty or missing `message` falls
back to the raw text); `undefined` when the error carries no `text`. -/
def errorInfoOf (e : JsError) : Option String :=
  match e.text with
  | none => none
  | some t =>
    match e.jsonMessage with
    | some (some m) => if m == "" then some t else some m
    | _ => some t

/-- The 500 response built by the shared catch block. -/
def catchResp (e : JsError) : HttpOut :=
  { status := 500, message := some "Internal Server Error", info := errorInfoOf e,
    errorAt := e.type }

/-- The error thrown by `getZoomAccessToken` on a non-ok token response:
a bare `Error` with no `type` and no `text` property attached. -/
def tokenFailErr : JsError :=
  { type := none, text := none, jsonMessage := none }

/-- The error thrown on a non-ok provider response after `await
response.text()`: tagged with the stage's provenance `type` and carrying
the raw body as `text`. -/
def respErr (tag : String) (r : ProviderResp) : JsError :=
  { type := some tag, text := some r.text, jsonMessage := r.jsonMessage }

/-- The validation response for missing required fields. -/
def missingResp : HttpOut :=
  { status := 500, message := some "Request Error", info := some "Missing required fields",
    errorAt := some "requestBody" }

/-- The validation response for a malformed email. -/
def invalidEmailResp : HttpOut :=
  { status := 400, message := some "Request Error", info := some "Invalid email format",
    errorAt := some "requestBody" }

/-- The request-body fields destructured by the base variant. -/
structure ReqBodyB where
  firstName : Option String
  lastName : Option String
  email : Option String
  company : Option String
  jobTitle : Option String
  eventId : Option String
  identifier : Option String
deriving DecidableEq, Repr

/-- The oracle for the base variant's outbound calls: token response and
(on success) the `access_token` of its JSON body, webinar registrant
response and (on success) the `join_url` of its JSON body, and the
mailing-list upsert response. -/
structure WorldB where
  tokenResp : ProviderResp
  access_token : String
  zoomResp : ProviderResp
  join_url : String
  mcResp : ProviderResp
deriving DecidableEq, Repr

/-- The registrant-creation payload of the base variant. -/
structure ZoomRegB where
  email : Option String
  first_name : Option String
  last_name : Option String
  org : Option String
deriving DecidableEq, Repr

/-- The mailing-list upsert payload of the base variant. -/
structure McMemberB where
  email_address : Option String
  status_if_new : String
  FNAME : Option String
  LNAME : Option String
  COMPANY : Option String
  JOBTITLE : Option String
deriving DecidableEq, Repr

/-- An outbound call of the base variant, with its payload. -/
inductive CallB where
  | tokenFetch
  | zoomCreate (p : ZoomRegB)
  | mcUpsert (p : McMemberB)
deriving DecidableEq, Repr

/-- A run of the base handler: the outbound calls issued, in order, and
the response sends attempted, in order (the caller sees the first). -/
structure RunB where
  calls : List CallB
  sends : List HttpOut
deriving DecidableEq, Repr

/-- The base variant's missing-required-fields guard:
`!firstName || !lastName || !email || !eventId || !company`. -/
def missingB (b : ReqBodyB) : Bool :=
  jsFalsy b.firstName || jsFalsy b.lastName || jsFalsy b.email ||
  jsFalsy b.eventId || jsFalsy b.company

/-- The base `register` handler (`src/functions/index.js`): method gate,
required-field check, email-format check, then token fetch, registrant
creation, the 200 response, and a fire-and-forget mailing-list upsert
whose non-ok, non-400 failure reaches the catch block after the 200 was
already committed. -/
def registerBase (method : String) (b : ReqBodyB) (w : WorldB) : RunB :=
  if method != "POST" then
    { calls := [], sends := [{ status := 405, message := some "Method Not Allowed" }] }
  else if missingB b then
    { calls := [], sends := [missingResp] }
  else if !emailRegexTest (b.email.getD "") then
    { calls := [], sends := [invalidEmailResp] }
  else if !w.tokenResp.ok then
    { calls := [CallB.tokenFetch], sends := [catchResp tokenFailErr] }
  else
    let zp : ZoomRegB :=
      { email := b.email, first_name := b.firstName, last_name := b.lastName,
        org := b.company }
    if !w.zoomResp.ok then
      { calls := [CallB.tokenFetch, CallB.zoomCreate zp],
        sends := [catchResp (respErr "zoom" w.zoomResp)] }
    else
      let okOut : HttpOut :=
        { status := 200, message := some "Registration successful",
          join_url := some w.join_url }
      let mp : McMemberB :=
        { email_address := b.email, status_if_new := "subscribed",
          FNAME := b.firstName, LNAME := b.lastName, COMPANY := b.company,
          JOBTITLE := b.jobTitle }
      let calls := [CallB.tokenFetch, CallB.zoomCreate zp, CallB.mcUpsert mp]
      if !w.mcResp.ok && w.mcResp.status != 400 then
        { calls := calls, sends := [okOut, catchResp (respErr "mailchimp" w.mcResp)] }
      else
        { calls := calls, sends := [okOut] }

/-- The request-body fields destructured by the extended variant. -/
structure ReqBodyE where
  firstName : Option String
  lastName : Option String
  email : Option String
  company : Option String
  jobTitle : Option String
  eventId : Option String
  city : Option String
  state : Option String
  region : Option String
  zipCode : Option String
  phone : Option String
  identifier : Option String
deriving DecidableEq, Repr

/-- The oracle for the extended variant's outbound calls: the two
mailing-list upserts (list 1 then list 2) each get their own response. -/
structure WorldE where
  tokenResp : ProviderResp
  access_token : String
  zoomResp : ProviderResp
  join_url : String
  mc1Resp : ProviderResp
  mc2Resp : ProviderResp
deriving DecidableEq, Repr

/-- The registrant-creation payload of the extended variant. -/
structure ZoomRegE where
  email : Option String
  first_name : Option String
  last_name : Option String
  org : Option String
  city : Option String
  country : Option String
  zip : Option String
  state : Option String
  phone : Option String
  job_title : Option String
deriving DecidableEq, Repr

/-- The mailing-list upsert payload of the extended variant (the same
record is sent to both lists). -/
structure McMemberE where
  email_address : Option String
  status : String
  status_if_new : String
  FNAME : Option String
  LNAME : Option String
  COMPANY : Option String
  JOBTITLE : Option String
  CITY : Option String
  PHONE : Option String
  STATE : Option String
  ZIPCODE : Option String
  REGION : Option String
  LEADSOURCE : String
  tag : String
deriving DecidableEq, Repr

/-- An outbound call of the extended variant, with its payload. -/
inductive CallE where
  | tokenFetch
  | zoomCreate (p : ZoomRegE)
  | mc1Upsert (p : McMemberE)
  | mc2Upsert (p : McMemberE)
deriving DecidableEq, Repr

/-- A run of the extended handler. -/
structure RunE where
  calls : List CallE
  sends : List HttpOut
deriving DecidableEq, Repr

/-- The extended variant's missing-required-fields guard, in the source's
order: `!firstName || !lastName || !email || !eventId || !company ||
!city || !region || !zipCode || !state || !phone || !jobTitle`. -/
def missingE (b : ReqBodyE) : Bool :=
  jsFalsy b.firstName || jsFalsy b.lastName || jsFalsy b.email ||
  jsFalsy b.eventId || jsFalsy b.company || jsFalsy b.city ||
  jsFalsy b.region || jsFalsy b.zipCode || jsFalsy b.state ||
  jsFalsy b.phone || jsFalsy b.jobTitle

/-- The extended `register` handler (`src/unnamed/part_000`): CORS
preflight, method gate, required-field check, region normalization,
email-format check, then token fetch, registrant creation, both
mailing-list upserts (list 1 then list 2), the two list failure checks
(list 2's check first, each guarded by the vacuous `status !== 200`
conjunct), and finally the 200 response.  The outer try/catch of the
source only guards the destructuring of the body and is unreachable once
the body is a record, so it is not represented. -/
def registerExt (method : String) (b : ReqBodyE) (w : WorldE) : RunE :=
  if method == "OPTIONS" then
    { calls := [], sends := [{ status := 204 }] }
  else if method != "POST" then
    { calls := [], sends := [{ status := 405, message := some "Method Not Allowed" }] }
  else if missingE b then
    { calls := [], sends := [missingResp] }
  else
    let region := if b.region == some "United States" then some "US" else b.region
    if !emailRegexTest (b.email.getD "") then
      { calls := [], sends := [invalidEmailResp] }
    else if !w.tokenResp.ok then
      { calls := [CallE.tokenFetch], sends := [catchResp tokenFailErr] }
    else
      let zp : ZoomRegE :=
        { email := b.email, first_name := b.firstName, last_name := b.lastName,
          org := b.company, city := b.city, country := region, zip := b.zipCode,
          state := b.state, phone := b.phone, job_title := b.jobTitle }
      if !w.zoomResp.ok then
        { calls := [CallE.tokenFetch, CallE.zoomCreate zp],
          sends := [catchResp (respErr "zoom" w.zoomResp)] }
      else
        let mp : McMemberE :=
          { email_address := b.email, status := "subscribed",
            status_if_new := "subscribed", FNAME := b.firstName,
            LNAME := b.lastName, COMPANY := b.company, JOBTITLE := b.jobTitle,
            CITY := b.city, PHONE := b.phone, STATE := b.state,
            ZIPCODE := b.zipCode, REGION := region,
            LEADSOURCE := "WEBSITE EVENT REGISTRATION", tag := "ALUMNI" }
        let calls := [CallE.tokenFetch, CallE.zoomCreate zp,
          CallE.mc1Upsert mp, CallE.mc2Upsert mp]
        let okOut : HttpOut :=
          { status := 200, message := some "Registration successful",
            join_url := some w.join_url }
        if !w.mc2Resp.ok && w.mc2Resp.status != 200 then
          { calls := calls, sends := [catchResp (respErr "mailchimp 2" w.mc2Resp)] }
        else if !w.mc1Resp.ok && w.mc1Resp.status != 200 then
          { calls := calls, sends := [catchResp (respErr "mailchimp 1" w.mc1Resp)] }
        else
          { calls := calls, sends := [okOut] }

/-- The human-readable message the spec says an error response's `info`
carries: the raw body's JSON `message` field when the body decodes as
JSON with a non-empty string `message`, the raw text otherwise. -/
def textOrMsg (r : ProviderResp) : String :=
  match r.jsonMessage with
  | some (some m) => if m == "" then r.text else m
  | _ => r.text

/-- A well-formed base-variant request body (the spec's concrete
scenario input). -/
def demoBodyB : ReqBodyB :=
  { firstName := some "A", lastName := some "B", email := some "a@b.com",
    company := some "C", jobTitle := some "D", eventId := some "123",
    identifier := none }

/-- A well-formed extended-variant request body. -/
def demoBodyE : ReqBodyE :=
  { firstName := some "A", lastName := some "B", email := some "a@b.com",
    company := some "C", jobTitle := some "D", eventId := some "123",
    city := some "Austin", state := some "TX", region := some "United States",
    zipCode := some "78701", phone := some "5551234", identifier := some "id1" }

/-- A successful token response. -/
def respOkTok : ProviderResp := { status := 200, text := "", jsonMessage := none }

/-- A successful registrant-creation response. -/
def respOkZoom : ProviderResp := { status := 201, text := "", jsonMessage := none }

/-- A successful mailing-list upsert response. -/
def respOkMc : ProviderResp := { status := 200, text := "", jsonMessage := none }

/-- A failing provider response whose body is not JSON. -/
def respFail503 : ProviderResp :=
  { status := 503, text := "service down", jsonMessage := none }

/-- The mailing-list provider's "already a member, no-op" response:
HTTP 400 with a JSON body whose message names the condition. -/
def respMemberExists : ProviderResp :=
  { status := 400, text := "member exists raw body",
    jsonMessage := some (some "Member Exists") }

/-- A base-variant world in which every outbound call succeeds. -/
def wAllOkB : WorldB :=
  { tokenResp := respOkTok, access_token := "tok", zoomResp := respOkZoom,
    join_url := "https://example.test/join/1", mcResp := respOkMc }

/-- A base-variant world whose token fetch fails. -/
def wTokenFailB : WorldB := { wAllOkB with tokenResp := respFail503 }

/-- A base-variant world whose mailing-list upsert answers "already a
member" (HTTP 400). -/
def wMemberExistsB : WorldB := { wAllOkB with mcResp := respMemberExists }

/-- An extended-variant world in which every outbound call succeeds. -/
def wAllOkE : WorldE :=
  { tokenResp := respOkTok, access_token := "tok", zoomResp := respOkZoom,
    join_url := "https://example.test/join/1", mc1Resp := respOkMc,
    mc2Resp := respOkMc }

/-- An extended-variant world whose token fetch fails. -/
def wTokenFailE : WorldE := { wAllOkE with tokenResp := respFail503 }

/-- An extended-variant world whose second-list upsert answers "already
a member" (HTTP 400), the first list succeeding. -/
def wMemberExists2E : WorldE := { wAllOkE with mc2Resp := respMemberExists }

/-- An extended-variant world whose first-list upsert answers "already a
member" (HTTP 400), the second list succeeding. -/
def wMemberExists1E : WorldE := { wAllOkE with mc1Resp := respMemberExists }

example : emailRegexTest "a@b.com" = true := by decide
example : emailRegexTest "first.last@sub.example.org" = true := by decide
example : emailRegexTest "a@b..c" = true := by decide
example : emailRegexTest "a@b" = false := by decide
example : emailRegexTest "ab.com" = false := by decide
example : emailRegexTest "a b@c.d" = false := by decide
example : emailRegexTest "@b.c" = false := by decide
example : emailRegexTest "a@.c" = false := by decide
example : emailRegexTest "a@b." = false := by decide
example : emailRegexTest "a@b@c.d" = false := by decide
example : emailRegexTest "" = false := by decide

/-- The `info` the catch block computes for a provenance-tagged provider
error is exactly the JSON-decoded message with raw-text fallback. -/
theorem errorInfoOf_respErr (tag : String) (r : ProviderResp) :
    errorInfoOf (respErr tag r) = some (textOrMsg r) := by
  cases h : r.jsonMessage with
  | none => simp [errorInfoOf, respErr, textOrMsg, h]
  | some m =>
    cases m with
    | none => simp [errorInfoOf, respErr, textOrMsg, h]
    | some s =>
      by_cases hs : (s == "") = true
      · simp [errorInfoOf, respErr, textOrMsg, h, hs]
      · simp [errorInfoOf, respErr, textOrMsg, h, hs]

/-- A non-ok response's status is never 200, so the extended variant's
`status !== 200` conjunct is redundant on the failure side. -/
theorem status_bne200_of_not_ok (r : ProviderResp) (h : r.ok = false) :
    (r.status != 200) = true := by
  have hn : ¬ (200 ≤ r.status ∧ r.status ≤ 299) := by
    intro hc
    have hok : r.ok = true := by
      simp [ProviderResp.ok]
      omega
    rw [hok] at h
    exact absurd h (by simp)
  have hne : r.status ≠ 200 := by
    intro he
    exact hn (by omega)
  simpa [bne_iff_ne] using hne

/-- A base-variant request body with the required `eventId` missing. -/
def demoMissingB : ReqBodyB := { demoBodyB with eventId := none }

/-- An extended-variant request body with the required `phone` missing. -/
def demoMissingE : ReqBodyE := { demoBodyE with phone := none }

/-- Claim C1: a mailing-list sync response with the "already a member,
no-op" status (HTTP 400, "Member Exists") is treated as success in the
base variant — the run keeps its single 200 send and no mailing-list
provenance tag is raised — but NOT in the extended variant: there the
exemption compares against status 200, which every non-ok response
already differs from, so the member-exists 400 aborts with provenance
"mailchimp 2" (resp. "mailchimp 1") and the caller receives 500 instead
of 200.  This theorem evaluates both handlers at the failing inputs. -/
theorem C1_member_exists_eval :
    ((registerBase "POST" demoBodyB wMemberExistsB).sends.map fun r => (r.status, r.errorAt))
      = [(200, none)]
    ∧ ((registerExt "POST" demoBodyE wMemberExists2E).sends.map fun r => (r.status, r.errorAt))
      = [(500, some "mailchimp 2")]
    ∧ ((registerExt "POST" demoBodyE wMemberExists1E).sends.map fun r => (r.status, r.errorAt))
      = [(500, some "mailchimp 1")] := by
  refine ⟨?_, ?_, ?_⟩ <;> rfl

/-- Claim C4: a POST request missing any required field (firstName,
lastName, email, eventId, company in the base variant; additionally
jobTitle, city, state, region, zipCode, phone in the extended variant)
gets the 500 response with message "Request Error", info "Missing
required fields", errorAt "requestBody" (= `missingResp`), and the
handler issues zero outbound calls. -/
theorem C4_missing_field_rejected (bB : ReqBodyB) (wB : WorldB) (bE : ReqBodyE) (wE : WorldE) :
    ((bB.firstName = none ∨ bB.lastName = none ∨ bB.email = none ∨
        bB.eventId = none ∨ bB.company = none) →
      registerBase "POST" bB wB = { calls := [], sends := [missingResp] })
    ∧ ((bE.firstName = none ∨ bE.lastName = none ∨ bE.email = none ∨
        bE.eventId = none ∨ bE.company = none ∨ bE.city = none ∨ bE.state = none ∨
        bE.region = none ∨ bE.zipCode = none ∨ bE.phone = none ∨ bE.jobTitle = none) →
      registerExt "POST" bE wE = { calls := [], sends := [missingResp] }) := by
  constructor
  · intro h
    have hm : missingB bB = true := by
      rcases h with h | h | h | h | h <;> simp [missingB, jsFalsy, h]
    simp [registerBase, hm]
  · intro h
    have hm : missingE bE = true := by
      rcases h with h | h | h | h | h | h | h | h | h | h | h <;> simp [missingE, jsFalsy, h]
    simp [registerExt, hm]

/-- Witness for C4 at concrete inputs: a body missing `eventId` (base)
and a body missing `phone` (extended). -/
theorem C4_missing_field_rejected_witness :
    (demoMissingB.eventId = none ∧ demoMissingE.phone = none)
    ∧ registerBase "POST" demoMissingB wAllOkB = { calls := [], sends := [missingResp] }
    ∧ registerExt "POST" demoMissingE wAllOkE = { calls := [], sends := [missingResp] } :=
  ⟨⟨rfl, rfl⟩,
    (C4_missing_field_rejected demoMissingB wAllOkB demoMissingE wAllOkE).1 (by decide),
    (C4_missing_field_rejected demoMissingB wAllOkB demoMissingE wAllOkE).2 (by decide)⟩

/-- A base-variant request body with a malformed email. -/
def demoBadEmailB : ReqBodyB := { demoBodyB with email := some "nope" }

/-- An extended-variant request body with a malformed email. -/
def demoBadEmailE : ReqBodyE := { demoBodyE with email := some "nope" }

/-- A base-variant world whose registrant creation fails. -/
def wZoomFailB : WorldB := { wAllOkB with zoomResp := respFail503 }

/-- An extended-variant world whose registrant creation fails. -/
def wZoomFailE : WorldE := { wAllOkE with zoomResp := respFail503 }

/-- A base-variant world whose mailing-list upsert fails fatally. -/
def wMcFailB : WorldB := { wAllOkB with mcResp := respFail503 }

/-- An extended-variant world in which both mailing-list upserts fail. -/
def wMc12FailE : WorldE :=
  { wAllOkE with mc1Resp := respFail503, mc2Resp := respFail503 }

/-- Claim C5: a POST request whose required fields all pass the
presence check but whose email fails the regex
`^[^\s@]+@[^\s@]+\.[^\s@]+$` gets the 400 response with message
"Request Error", info "Invalid email format", errorAt "requestBody"
(= `invalidEmailResp`), and the handler issues zero outbound calls;
in both variants. -/
theorem C5_invalid_email_rejected (bB : ReqBodyB) (wB : WorldB) (bE : ReqBodyE) (wE : WorldE)
    (hmB : missingB bB = false) (heB : emailRegexTest (bB.email.getD "") = false)
    (hmE : missingE bE = false) (heE : emailRegexTest (bE.email.getD "") = false) :
    registerBase "POST" bB wB = { calls := [], sends := [invalidEmailResp] }
    ∧ registerExt "POST" bE wE = { calls := [], sends := [invalidEmailResp] } := by
  constructor
  · simp [registerBase, hmB, heB]
  · simp [registerExt, hmE, heE]

/-- Witness for C5 at concrete inputs with email "nope". -/
theorem C5_invalid_email_rejected_witness :
    (missingB demoBadEmailB = false ∧ emailRegexTest (demoBadEmailB.email.getD "") = false
      ∧ missingE demoBadEmailE = false ∧ emailRegexTest (demoBadEmailE.email.getD "") = false)
    ∧ registerBase "POST" demoBadEmailB wAllOkB = { calls := [], sends := [invalidEmailResp] }
    ∧ registerExt "POST" demoBadEmailE wAllOkE = { calls := [], sends := [invalidEmailResp] } :=
  ⟨⟨rfl, rfl, rfl, rfl⟩,
    (C5_invalid_email_rejected demoBadEmailB wAllOkB demoBadEmailE wAllOkE rfl rfl rfl rfl).1,
    (C5_invalid_email_rejected demoBadEmailB wAllOkB demoBadEmailE wAllOkE rfl rfl rfl rfl).2⟩

/-- Claim C2: in the base (fire-and-forget) variant, once registrant
creation has succeeded the caller-visible response — the first committed
send, the only one the HTTP layer delivers — is the 200 success
response, whatever the mailing-list outcome; and when the mailing-list
upsert is not fatal the run attempts no further send at all.  (On a
fatal mailing-list failure the catch block does attempt a second, 500
send, but the response is already committed, so the attempt dies on the
headers-already-sent error and nothing further reaches the caller.) -/
theorem C2_base_one_visible_response (b : ReqBodyB) (w : WorldB)
    (hm : missingB b = false) (he : emailRegexTest (b.email.getD "") = true)
    (ht : w.tokenResp.ok = true) (hz : w.zoomResp.ok = true) :
    (registerBase "POST" b w).sends.head? =
      some { status := 200, message := some "Registration successful",
             join_url := some w.join_url }
    ∧ (w.mcResp.ok = true →
      (registerBase "POST" b w).sends =
        [{ status := 200, message := some "Registration successful",
           join_url := some w.join_url }]) := by
  constructor
  · by_cases hmc : (!w.mcResp.ok && w.mcResp.status != 400) = true <;>
      simp [registerBase, hm, he, ht, hz, hmc]
  · intro hok
    have hmc : (!w.mcResp.ok && w.mcResp.status != 400) = false := by simp [hok]
    simp [registerBase, hm, he, ht, hz, hmc]

/-- Witness for C2: the all-succeeding world and the spec's concrete
scenario body. -/
theorem C2_base_one_visible_response_witness :
    (missingB demoBodyB = false ∧ emailRegexTest (demoBodyB.email.getD "") = true
      ∧ wAllOkB.tokenResp.ok = true ∧ wAllOkB.zoomResp.ok = true)
    ∧ (registerBase "POST" demoBodyB wAllOkB).sends.head? =
        some { status := 200, message := some "Registration successful",
               join_url := some wAllOkB.join_url }
    ∧ (wAllOkB.mcResp.ok = true →
      (registerBase "POST" demoBodyB wAllOkB).sends =
        [{ status := 200, message := some "Registration successful",
           join_url := some wAllOkB.join_url }]) :=
  ⟨⟨rfl, rfl, rfl, rfl⟩,
    (C2_base_one_visible_response demoBodyB wAllOkB rfl rfl rfl rfl).1,
    (C2_base_one_visible_response demoBodyB wAllOkB rfl rfl rfl rfl).2⟩

/-- Claim C3 counterexample: on a token-fetch failure the error thrown
by `getZoomAccessToken` carries neither a `type` nor a `text` property,
so the 500 response's `errorAt` and `info` fields are both absent — the
response names no failing stage, contradicting the claim's "in
particular this holds for a token-fetch failure". -/
theorem C3_token_failure_untagged :
    (registerBase "POST" demoBodyB wTokenFailB).sends =
      [{ status := 500, message := some "Internal Server Error",
         info := none, errorAt := none }] := by
  rfl

/-- Claim C3 (amended): for registrant-creation and mailing-list
failures, in both variants, the 500 response's `errorAt` carries the
stage's provenance tag and `info` carries the raw body JSON-decoded to
its `message` field with raw-text fallback (= `textOrMsg`); a
token-fetch failure, however, produces a 500 whose `errorAt` and `info`
are both absent, since the token error is thrown without provenance tag
or captured body. -/
theorem C3_provenance_and_info (bB : ReqBodyB) (wB : WorldB) (bE : ReqBodyE) (wE : WorldE)
    (hmB : missingB bB = false) (heB : emailRegexTest (bB.email.getD "") = true)
    (hmE : missingE bE = false) (heE : emailRegexTest (bE.email.getD "") = true) :
    (wB.tokenResp.ok = false →
      (registerBase "POST" bB wB).sends =
        [{ status := 500, message := some "Internal Server Error",
           info := none, errorAt := none }])
    ∧ (wB.tokenResp.ok = true → wB.zoomResp.ok = false →
      (registerBase "POST" bB wB).sends =
        [{ status := 500, message := some "Internal Server Error",
           info := some (textOrMsg wB.zoomResp), errorAt := some "zoom" }])
    ∧ (wB.tokenResp.ok = true → wB.zoomResp.ok = true →
       wB.mcResp.ok = false → wB.mcResp.status ≠ 400 →
      (registerBase "POST" bB wB).sends =
        [{ status := 200, message := some "Registration successful",
           join_url := some wB.join_url },
         { status := 500, message := some "Internal Server Error",
           info := some (textOrMsg wB.mcResp), errorAt := some "mailchimp" }])
    ∧ (wE.tokenResp.ok = false →
      (registerExt "POST" bE wE).sends =
        [{ status := 500, message := some "Internal Server Error",
           info := none, errorAt := none }])
    ∧ (wE.tokenResp.ok = true → wE.zoomResp.ok = false →
      (registerExt "POST" bE wE).sends =
        [{ status := 500, message := some "Internal Server Error",
           info := some (textOrMsg wE.zoomResp), errorAt := some "zoom" }])
    ∧ (wE.tokenResp.ok = true → wE.zoomResp.ok = true → wE.mc2Resp.ok = false →
      (registerExt "POST" bE wE).sends =
        [{ status := 500, message := some "Internal Server Error",
           info := some (textOrMsg wE.mc2Resp), errorAt := some "mailchimp 2" }])
    ∧ (wE.tokenResp.ok = true → wE.zoomResp.ok = true → wE.mc2Resp.ok = true →
       wE.mc1Resp.ok = false →
      (registerExt "POST" bE wE).sends =
        [{ status := 500, message := some "Internal Server Error",
           info := some (textOrMsg wE.mc1Resp), errorAt := some "mailchimp 1" }]) := by
  refine ⟨?_, ?_, ?_, ?_, ?_, ?_, ?_⟩
  · intro ht
    simp [registerBase, hmB, heB, ht, catchResp, tokenFailErr, errorInfoOf]
  · intro ht hz
    simp [registerBase, hmB, heB, ht, hz, catchResp, respErr, errorInfoOf_respErr]
    exact errorInfoOf_respErr "zoom" wB.zoomResp
  · intro ht hz hmc hst
    have hb : (wB.mcResp.status != 400) = true := by simpa [bne_iff_ne] using hst
    simp [registerBase, hmB, heB, ht, hz, hmc, hb, catchResp, respErr, errorInfoOf_respErr]
    exact errorInfoOf_respErr "mailchimp" wB.mcResp
  · intro ht
    simp [registerExt, hmE, heE, ht, catchResp, tokenFailErr, errorInfoOf]
  · intro ht hz
    simp [registerExt, hmE, heE, ht, hz, catchResp, respErr, errorInfoOf_respErr]
    exact errorInfoOf_respErr "zoom" wE.zoomResp
  · intro ht hz h2
    have hb := status_bne200_of_not_ok wE.mc2Resp h2
    simp [registerExt, hmE, heE, ht, hz, h2, hb, catchResp, respErr, errorInfoOf_respErr]
    exact errorInfoOf_respErr "mailchimp 2" wE.mc2Resp
  · intro ht hz h2 h1
    have hb := status_bne200_of_not_ok wE.mc1Resp h1
    simp [registerExt, hmE, heE, ht, hz, h2, h1, hb, catchResp, respErr, errorInfoOf_respErr]
    exact errorInfoOf_respErr "mailchimp 1" wE.mc1Resp

/-- Witness for the amended C3: token failure in both variants at
concrete inputs, using the first and fourth conjuncts. -/
theorem C3_provenance_and_info_witness :
    (missingB demoBodyB = false ∧ emailRegexTest (demoBodyB.email.getD "") = true
      ∧ missingE demoBodyE = false ∧ emailRegexTest (demoBodyE.email.getD "") = true
      ∧ wTokenFailB.tokenResp.ok = false ∧ wTokenFailE.tokenResp.ok = false)
    ∧ (registerBase "POST" demoBodyB wTokenFailB).sends =
        [{ status := 500, message := some "Internal Server Error",
           info := none, errorAt := none }]
    ∧ (registerExt "POST" demoBodyE wTokenFailE).sends =
        [{ status := 500, message := some "Internal Server Error",
           info := none, errorAt := none }] :=
  ⟨⟨rfl, rfl, rfl, rfl, rfl, rfl⟩,
    (C3_provenance_and_info demoBodyB wTokenFailB demoBodyE wTokenFailE rfl rfl rfl rfl).1 rfl,
    (C3_provenance_and_info demoBodyB wTokenFailB demoBodyE wTokenFailE rfl rfl rfl rfl).2.2.2.1 rfl⟩

/-- Claim C6: an earlier stage's failure prevents all later outbound
calls, in both variants: a token-fetch failure leaves the token fetch as
the only outbound call (no registrant creation, no list sync); a
registrant-creation failure leaves exactly the token fetch and the
registrant-creation call (no list sync) and the single 500 send carries
the provenance tag "zoom" of the webinar stage. -/
theorem C6_early_failure_stops_pipeline (bB : ReqBodyB) (wB : WorldB) (bE : ReqBodyE) (wE : WorldE)
    (hmB : missingB bB = false) (heB : emailRegexTest (bB.email.getD "") = true)
    (hmE : missingE bE = false) (heE : emailRegexTest (bE.email.getD "") = true) :
    (wB.tokenResp.ok = false → (registerBase "POST" bB wB).calls = [CallB.tokenFetch])
    ∧ (wB.tokenResp.ok = true → wB.zoomResp.ok = false →
        (registerBase "POST" bB wB).calls =
          [CallB.tokenFetch, CallB.zoomCreate
            { email := bB.email, first_name := bB.firstName, last_name := bB.lastName,
              org := bB.company }]
        ∧ ((registerBase "POST" bB wB).sends.map HttpOut.errorAt) = [some "zoom"])
    ∧ (wE.tokenResp.ok = false → (registerExt "POST" bE wE).calls = [CallE.tokenFetch])
    ∧ (wE.tokenResp.ok = true → wE.zoomResp.ok = false →
        (registerExt "POST" bE wE).calls =
          [CallE.tokenFetch, CallE.zoomCreate
            { email := bE.email, first_name := bE.firstName, last_name := bE.lastName,
              org := bE.company, city := bE.city,
              country := if bE.region == some "United States" then some "US" else bE.region,
              zip := bE.zipCode, state := bE.state, phone := bE.phone,
              job_title := bE.jobTitle }]
        ∧ ((registerExt "POST" bE wE).sends.map HttpOut.errorAt) = [some "zoom"]) := by
  refine ⟨?_, ?_, ?_, ?_⟩
  · intro ht
    simp [registerBase, hmB, heB, ht]
  · intro ht hz
    simp [registerBase, hmB, heB, ht, hz, catchResp, respErr]
  · intro ht
    simp [registerExt, hmE, heE, ht]
  · intro ht hz
    simp [registerExt, hmE, heE, ht, hz, catchResp, respErr]

/-- Witness for C6: registrant creation failing after a successful token
fetch, at concrete inputs, in both variants. -/
theorem C6_early_failure_stops_pipeline_witness :
    (missingB demoBodyB = false ∧ emailRegexTest (demoBodyB.email.getD "") = true
      ∧ missingE demoBodyE = false ∧ emailRegexTest (demoBodyE.email.getD "") = true
      ∧ wZoomFailB.tokenResp.ok = true ∧ wZoomFailB.zoomResp.ok = false
      ∧ wZoomFailE.tokenResp.ok = true ∧ wZoomFailE.zoomResp.ok = false)
    ∧ ((registerBase "POST" demoBodyB wZoomFailB).calls =
        [CallB.tokenFetch, CallB.zoomCreate
          { email := demoBodyB.email, first_name := demoBodyB.firstName,
            last_name := demoBodyB.lastName, org := demoBodyB.company }]
      ∧ ((registerBase "POST" demoBodyB wZoomFailB).sends.map HttpOut.errorAt) = [some "zoom"])
    ∧ ((registerExt "POST" demoBodyE wZoomFailE).calls =
        [CallE.tokenFetch, CallE.zoomCreate
          { email := demoBodyE.email, first_name := demoBodyE.firstName,
            last_name := demoBodyE.lastName, org := demoBodyE.company,
            city := demoBodyE.city,
            country := if demoBodyE.region == some "United States" then some "US"
              else demoBodyE.region,
            zip := demoBodyE.zipCode, state := demoBodyE.state,
            phone := demoBodyE.phone, job_title := demoBodyE.jobTitle }]
      ∧ ((registerExt "POST" demoBodyE wZoomFailE).sends.map HttpOut.errorAt) = [some "zoom"]) :=
  ⟨⟨rfl, rfl, rfl, rfl, rfl, rfl, rfl, rfl⟩,
    (C6_early_failure_stops_pipeline demoBodyB wZoomFailB demoBodyE wZoomFailE
      rfl rfl rfl rfl).2.1 rfl rfl,
    (C6_early_failure_stops_pipeline demoBodyB wZoomFailB demoBodyE wZoomFailE
      rfl rfl rfl rfl).2.2.2 rfl rfl⟩

/-- Claim C7: when the token fetch, the registrant creation and every
configured mailing-list sync succeed, the handler's only send is the 200
response with message "Registration successful" and the `join_url`
verbatim from the webinar provider's registrant-creation response; in
both variants. -/
theorem C7_success_returns_join_url (bB : ReqBodyB) (wB : WorldB) (bE : ReqBodyE) (wE : WorldE)
    (hmB : missingB bB = false) (heB : emailRegexTest (bB.email.getD "") = true)
    (hmE : missingE bE = false) (heE : emailRegexTest (bE.email.getD "") = true) :
    (wB.tokenResp.ok = true → wB.zoomResp.ok = true → wB.mcResp.ok = true →
      (registerBase "POST" bB wB).sends =
        [{ status := 200, message := some "Registration successful",
           join_url := some wB.join_url }])
    ∧ (wE.tokenResp.ok = true → wE.zoomResp.ok = true →
       wE.mc1Resp.ok = true → wE.mc2Resp.ok = true →
      (registerExt "POST" bE wE).sends =
        [{ status := 200, message := some "Registration successful",
           join_url := some wE.join_url }]) := by
  constructor
  · intro ht hz hmc
    have h : (!wB.mcResp.ok && wB.mcResp.status != 400) = false := by simp [hmc]
    simp [registerBase, hmB, heB, ht, hz, h]
  · intro ht hz h1 h2
    have hc2 : (!wE.mc2Resp.ok && wE.mc2Resp.status != 200) = false := by simp [h2]
    have hc1 : (!wE.mc1Resp.ok && wE.mc1Resp.status != 200) = false := by simp [h1]
    simp [registerExt, hmE, heE, ht, hz, hc1, hc2]

/-- Witness for C7: the all-succeeding worlds at the spec's concrete
scenario body. -/
theorem C7_success_returns_join_url_witness :
    (missingB demoBodyB = false ∧ emailRegexTest (demoBodyB.email.getD "") = true
      ∧ missingE demoBodyE = false ∧ emailRegexTest (demoBodyE.email.getD "") = true)
    ∧ (registerBase "POST" demoBodyB wAllOkB).sends =
        [{ status := 200, message := some "Registration successful",
           join_url := some wAllOkB.join_url }]
    ∧ (registerExt "POST" demoBodyE wAllOkE).sends =
        [{ status := 200, message := some "Registration successful",
           join_url := some wAllOkE.join_url }] :=
  ⟨⟨rfl, rfl, rfl, rfl⟩,
    (C7_success_returns_join_url demoBodyB wAllOkB demoBodyE wAllOkE
      rfl rfl rfl rfl).1 rfl rfl rfl,
    (C7_success_returns_join_url demoBodyB wAllOkB demoBodyE wAllOkE
      rfl rfl rfl rfl).2 rfl rfl rfl rfl⟩

/-- Claim C8: in the extended variant, for every valid request, the
region value sent downstream — as `country` to the webinar provider and
as the `REGION` merge field to both mailing lists — is "US" when the
request's region equals exactly "United States" and the request's region
unchanged otherwise (`==` on optional strings is exact string equality);
every other payload field is the corresponding request field verbatim,
so no other field undergoes any normalization. -/
theorem C8_region_normalization (b : ReqBodyE) (w : WorldE)
    (hm : missingE b = false) (he : emailRegexTest (b.email.getD "") = true)
    (ht : w.tokenResp.ok = true) (hz : w.zoomResp.ok = true) :
    (registerExt "POST" b w).calls =
      [CallE.tokenFetch,
       CallE.zoomCreate
         { email := b.email, first_name := b.firstName, last_name := b.lastName,
           org := b.company, city := b.city,
           country := if b.region == some "United States" then some "US" else b.region,
           zip := b.zipCode, state := b.state, phone := b.phone,
           job_title := b.jobTitle },
       CallE.mc1Upsert
         { email_address := b.email, status := "subscribed",
           status_if_new := "subscribed", FNAME := b.firstName, LNAME := b.lastName,
           COMPANY := b.company, JOBTITLE := b.jobTitle, CITY := b.city,
           PHONE := b.phone, STATE := b.state, ZIPCODE := b.zipCode,
           REGION := if b.region == some "United States" then some "US" else b.region,
           LEADSOURCE := "WEBSITE EVENT REGISTRATION", tag := "ALUMNI" },
       CallE.mc2Upsert
         { email_address := b.email, status := "subscribed",
           status_if_new := "subscribed", FNAME := b.firstName, LNAME := b.lastName,
           COMPANY := b.company, JOBTITLE := b.jobTitle, CITY := b.city,
           PHONE := b.phone, STATE := b.state, ZIPCODE := b.zipCode,
           REGION := if b.region == some "United States" then some "US" else b.region,
           LEADSOURCE := "WEBSITE EVENT REGISTRATION", tag := "ALUMNI" }] := by
  by_cases h2 : (!w.mc2Resp.ok && w.mc2Resp.status != 200) = true <;>
    by_cases h1 : (!w.mc1Resp.ok && w.mc1Resp.status != 200) = true <;>
      simp [registerExt, hm, he, ht, hz, h2, h1]

/-- Witness for C8: the all-succeeding extended world at a body whose
region is exactly "United States" (so `country` and `REGION` are "US"). -/
theorem C8_region_normalization_witness :
    (missingE demoBodyE = false ∧ emailRegexTest (demoBodyE.email.getD "") = true
      ∧ wAllOkE.tokenResp.ok = true ∧ wAllOkE.zoomResp.ok = true
      ∧ demoBodyE.region = some "United States")
    ∧ (registerExt "POST" demoBodyE wAllOkE).calls =
      [CallE.tokenFetch,
       CallE.zoomCreate
         { email := demoBodyE.email, first_name := demoBodyE.firstName,
           last_name := demoBodyE.lastName, org := demoBodyE.company,
           city := demoBodyE.city,
           country := if demoBodyE.region == some "United States" then some "US"
             else demoBodyE.region,
           zip := demoBodyE.zipCode, state := demoBodyE.state,
           phone := demoBodyE.phone, job_title := demoBodyE.jobTitle },
       CallE.mc1Upsert
         { email_address := demoBodyE.email, status := "subscribed",
           status_if_new := "subscribed", FNAME := demoBodyE.firstName,
           LNAME := demoBodyE.lastName, COMPANY := demoBodyE.company,
           JOBTITLE := demoBodyE.jobTitle, CITY := demoBodyE.city,
           PHONE := demoBodyE.phone, STATE := demoBodyE.state,
           ZIPCODE := demoBodyE.zipCode,
           REGION := if demoBodyE.region == some "United States" then some "US"
             else demoBodyE.region,
           LEADSOURCE := "WEBSITE EVENT REGISTRATION", tag := "ALUMNI" },
       CallE.mc2Upsert
         { email_address := demoBodyE.email, status := "subscribed",
           status_if_new := "subscribed", FNAME := demoBodyE.firstName,
           LNAME := demoBodyE.lastName, COMPANY := demoBodyE.company,
           JOBTITLE := demoBodyE.jobTitle, CITY := demoBodyE.city,
           PHONE := demoBodyE.phone, STATE := demoBodyE.state,
           ZIPCODE := demoBodyE.zipCode,
           REGION := if demoBodyE.region == some "United States" then some "US"
             else demoBodyE.region,
           LEADSOURCE := "WEBSITE EVENT REGISTRATION", tag := "ALUMNI" }] :=
  ⟨⟨rfl, rfl, rfl, rfl, rfl⟩,
    C8_region_normalization demoBodyE wAllOkE rfl rfl rfl rfl⟩

/-- Claim C9: in the extended variant the second list's failure is
checked before the first list's: when both list upserts fail, the single
500 send carries the provenance tag "mailchimp 2" of the second list. -/
theorem C9_second_list_error_priority (b : ReqBodyE) (w : WorldE)
    (hm : missingE b = false) (he : emailRegexTest (b.email.getD "") = true)
    (ht : w.tokenResp.ok = true) (hz : w.zoomResp.ok = true)
    (h1 : w.mc1Resp.ok = false) (h2 : w.mc2Resp.ok = false) :
    ((registerExt "POST" b w).sends.map fun r => (r.status, r.errorAt)) =
      [(500, some "mailchimp 2")] := by
  have hb2 := status_bne200_of_not_ok w.mc2Resp h2
  simp [registerExt, hm, he, ht, hz, h2, hb2, catchResp, respErr]

/-- Witness for C9: both list upserts failing with 503 at concrete
inputs. -/
theorem C9_second_list_error_priority_witness :
    (missingE demoBodyE = false ∧ emailRegexTest (demoBodyE.email.getD "") = true
      ∧ wMc12FailE.tokenResp.ok = true ∧ wMc12FailE.zoomResp.ok = true
      ∧ wMc12FailE.mc1Resp.ok = false ∧ wMc12FailE.mc2Resp.ok = false)
    ∧ ((registerExt "POST" demoBodyE wMc12FailE).sends.map fun r => (r.status, r.errorAt)) =
      [(500, some "mailchimp 2")] :=
  ⟨⟨rfl, rfl, rfl, rfl, rfl, rfl⟩,
    C9_second_list_error_priority demoBodyE wMc12FailE rfl rfl rfl rfl rfl rfl⟩

/-- Claim C10: the `identifier` request-body field is destructured but
never read afterwards: two requests differing only in `identifier`
(including presence vs absence) with the same method and the same
downstream responses produce the same run — the same outbound call
payloads and the same response sends — in both variants. -/
theorem C10_identifier_no_influence :
    (∀ (m : String) (b : ReqBodyB) (i : Option String) (w : WorldB),
      registerBase m { b with identifier := i } w = registerBase m b w)
    ∧ (∀ (m : String) (b : ReqBodyE) (i : Option String) (w : WorldE),
      registerExt m { b with identifier := i } w = registerExt m b w) := by
  constructor
  · intro m b i w
    rfl
  · intro m b i w
    rfl

end EventReg
